import Mathlib

/-!
Verification of the orchestration-and-routing core of the agentprovision
platform: the agent orchestrator (priority task queues, capacity registry,
scheduler, executor), the API gateway (circuit breaker, rate limiter) and
the LLM engine response cache, shallowly embedded as pure Lean functions
translated from the Python source in
`agentprovision/core/services/agent_orchestrator.py`,
`agentprovision/core/services/api_gateway.py` and
`agentprovision/core/services/llm_engine.py`.

Python dicts are modelled as association lists with first-match lookup,
`datetime.utcnow()` / `time.time()` as explicit integer time parameters,
and the asynchronous handler outcome of a task as an explicit outcome
argument.  Fields of the source dataclasses that no modelled routine
reads (float metrics such as `cpu_usage_percent`, opaque payload and
metadata dicts) are omitted.
-/

namespace AgentProvision

/-- First-match lookup in an association list (Python `dict[key]` /
`key in dict`). -/
def lookupA {α β : Type} [BEq α] : List (α × β) → α → Option β
  | [], _ => none
  | (k, v) :: rest, key => if k == key then some v else lookupA rest key

/-- Insert or overwrite the first binding of `key` (Python
`dict[key] = val`). -/
def insertA {α β : Type} [BEq α] : List (α × β) → α → β → List (α × β)
  | [], key, val => [(key, val)]
  | (k, v) :: rest, key, val =>
      if k == key then (key, val) :: rest else (k, v) :: insertA rest key val

/-- Update the first binding of `key` in place, if present. -/
def updateA {α β : Type} [BEq α] : List (α × β) → α → (β → β) → List (α × β)
  | [], _, _ => []
  | (k, v) :: rest, key, f =>
      if k == key then (key, f v) :: rest else (k, v) :: updateA rest key f

/-- Remove the first binding of `key` (Python `dict.pop(key, None)`). -/
def eraseA {α β : Type} [BEq α] : List (α × β) → α → List (α × β)
  | [], _ => []
  | (k, v) :: rest, key =>
      if k == key then rest else (k, v) :: eraseA rest key


/-! ## Circuit breaker (api_gateway.py) -/

/-- `CircuitBreakerConfig` from `api_gateway.py`. -/
structure CircuitBreakerConfig where
  failure_threshold : Nat := 5
  recovery_timeout : Nat := 60
  success_threshold : Nat := 3
  timeout_seconds : Nat := 30
deriving Repr, DecidableEq

/-- `CircuitBreakerState` from `api_gateway.py`; the `state` field holds
one of the strings "closed", "open", "half_open", exactly as the source
does. -/
structure CircuitBreakerState where
  service_name : String
  state : String := "closed"
  failure_count : Nat := 0
  success_count : Nat := 0
  last_failure_time : Option Nat := none
  last_success_time : Option Nat := none
deriving Repr, DecidableEq

/-- The per-breaker mutation performed by `_update_circuit_breaker` once
the breaker record for the endpoint exists. -/
def updateBreaker (cfg : CircuitBreakerConfig) (b : CircuitBreakerState)
    (isFailure : Bool) (now : Nat) : CircuitBreakerState :=
  if isFailure then
    let b1 := { b with failure_count := b.failure_count + 1,
                       last_failure_time := some now,
                       success_count := 0 }
    if b1.state == "closed" && b1.failure_count ≥ cfg.failure_threshold then
      { b1 with state := "open" }
    else b1
  else
    let b1 := { b with success_count := b.success_count + 1,
                       last_success_time := some now }
    if b1.state == "half_open" && b1.success_count ≥ cfg.success_threshold then
      { b1 with state := "closed", failure_count := 0 }
    else b1

/-- `_update_circuit_breaker`: create the endpoint's breaker if missing,
then apply the failure/success update. -/
def updateCircuitBreaker (cfg : CircuitBreakerConfig)
    (breakers : List (String × CircuitBreakerState)) (endpoint : String)
    (isFailure : Bool) (now : Nat) : List (String × CircuitBreakerState) :=
  let b := (lookupA breakers endpoint).getD { service_name := endpoint }
  insertA breakers endpoint (updateBreaker cfg b isFailure now)

/-- `_is_circuit_breaker_open`: returns whether the call must be rejected
and the (possibly updated) breaker table; an open breaker past
`recovery_timeout` since its last failure moves to half_open with the
success counter cleared. -/
def isCircuitBreakerOpen (cfg : CircuitBreakerConfig)
    (breakers : List (String × CircuitBreakerState)) (endpoint : String)
    (now : Nat) : Bool × List (String × CircuitBreakerState) :=
  match lookupA breakers endpoint with
  | none => (false, breakers)
  | some b =>
      if b.state == "open" then
        match b.last_failure_time with
        | some t =>
            if now - t > cfg.recovery_timeout then
              (false, insertA breakers endpoint
                { b with state := "half_open", success_count := 0 })
            else (true, breakers)
        | none => (true, breakers)
      else (false, breakers)

/-- Run a sequence of request outcomes (`true` = failure) through a single
breaker, all at time 0. -/
def runBreaker (cfg : CircuitBreakerConfig) (b : CircuitBreakerState)
    (outcomes : List Bool) : CircuitBreakerState :=
  outcomes.foldl (fun st f => updateBreaker cfg st f 0) b

/-- Longest run of consecutive failures in an outcome sequence; this is
the quantity the specification's "consecutive failures" wording refers
to (spec-side definition, for comparison with the code). -/
def maxConsecutiveFailures (outcomes : List Bool) : Nat :=
  (outcomes.foldl
    (fun p f => if f then (p.1 + 1, max p.2 (p.1 + 1)) else (0, p.2))
    (0, 0)).2

/-- Default config (`failure_threshold = 5`) and a fresh breaker. -/
def defaultBreakerConfig : CircuitBreakerConfig := {}

def freshBreaker (endpoint : String) : CircuitBreakerState :=
  { service_name := endpoint }

/-! ## Rate limiter (api_gateway.py) -/

/-- `RateLimitRule` from `api_gateway.py` (creation timestamp omitted). -/
structure RateLimitRule where
  id : String
  name : String
  pattern : String
  requests_per_minute : Nat := 100
  requests_per_hour : Nat := 1000
  requests_per_day : Nat := 10000
  burst_limit : Nat := 10
  tenant_specific : Bool := true
  user_specific : Bool := false
  enabled : Bool := true
deriving Repr, DecidableEq

/-- The dict returned by the rate-limit checks: `allowed`, `limit`,
`remaining`, `reset_time`. -/
structure RateLimitResult where
  allowed : Bool
  limit : Nat
  remaining : Int
  reset_time : Int
deriving Repr, DecidableEq

/-- Bool test for a contiguous sub-list, used to model Python substring
containment. -/
def listContains (needle : List Char) : List Char → Bool
  | [] => needle.isEmpty
  | c :: rest => needle.isPrefixOf (c :: rest) || listContains needle rest

/-- Substring test, Python `needle in haystack` on strings. -/
def strContains (haystack needle : String) : Bool :=
  listContains needle.data haystack.data

/-- `_rule_matches_request`: the rule's pattern is a substring of the
endpoint path, or the wildcard `*`.  The `method` argument is accepted
but unused, as in the source. -/
def ruleMatchesRequest (rule : RateLimitRule) (endpoint _method : String) :
    Bool :=
  strContains endpoint rule.pattern || rule.pattern == "*"

/-- The Redis key built by `_check_redis_rate_limit`; a falsy (`None` or
zero / empty) tenant or user identifier is skipped, mirroring Python
truthiness. -/
def redisRateLimitKey (rule : RateLimitRule) (tenantId : Option Int)
    (userId : Option String) : String :=
  let base := "rate_limit:" ++ rule.id
  let withTenant :=
    match tenantId with
    | some t => if rule.tenant_specific && !(t == 0) then
        base ++ ":tenant:" ++ toString t else base
    | none => base
  match userId with
  | some u => if rule.user_specific && !(u == "") then
      withTenant ++ ":user:" ++ u else withTenant
  | none => withTenant

/-- `_check_redis_rate_limit` on one key's sliding window, modelled as the
list of request timestamps stored in the Redis sorted set: entries with
score in `[0, now-60]` are dropped (`zremrangebyscore`), the survivors
are counted (`zcard`), and the request is admitted and recorded exactly
when the count is below `requests_per_minute`.  `prunedWindow` is the
`zremrangebyscore` step on its own: it drops the entries whose score
lies in `[0, now-60]`. -/
def prunedWindow (window : List Int) (now : Int) : List Int :=
  window.filter (fun s => !(decide (0 ≤ s) && decide (s ≤ now - 60)))

def checkRedisRateLimit (rule : RateLimitRule) (window : List Int)
    (now : Int) : RateLimitResult × List Int :=
  let w1 := prunedWindow window now
  let currentCount := w1.length
  if currentCount ≥ rule.requests_per_minute then
    ({ allowed := false, limit := rule.requests_per_minute,
       remaining := 0, reset_time := now + 60 }, w1)
  else
    ({ allowed := true, limit := rule.requests_per_minute,
       remaining := (rule.requests_per_minute : Int) - currentCount - 1,
       reset_time := now + 60 }, w1 ++ [now])

/-- `_check_memory_rate_limit`: the in-memory fallback used when Redis is
unavailable; it keeps no state and admits every request. -/
def checkMemoryRateLimit (rule : RateLimitRule) : RateLimitResult :=
  { allowed := true, limit := rule.requests_per_minute,
    remaining := rule.requests_per_minute, reset_time := 0 }

/-- Python `min(rules, key=lambda r: r.requests_per_minute)`: first rule
with the strictly smallest per-minute limit. -/
def mostRestrictiveRule (r : RateLimitRule) (rest : List RateLimitRule) :
    RateLimitRule :=
  rest.foldl
    (fun best r2 =>
      if r2.requests_per_minute < best.requests_per_minute then r2 else best)
    r

/-- `_check_rate_limits`: filter enabled matching rules, pick the most
restrictive, and dispatch to the Redis check (threading that key's
window store) or to the stateless in-memory fallback.  `hasRedis` models
whether `self.redis_client` is set. -/
def checkRateLimits (hasRedis : Bool) (rules : List RateLimitRule)
    (endpoint method : String) (tenantId : Option Int)
    (userId : Option String) (windows : List (String × List Int))
    (now : Int) : RateLimitResult × List (String × List Int) :=
  let applicable := rules.filter
    (fun r => r.enabled && ruleMatchesRequest r endpoint method)
  match applicable with
  | [] => ({ allowed := true, limit := 0, remaining := 0, reset_time := 0 },
           windows)
  | r :: rest =>
      let rule := mostRestrictiveRule r rest
      if hasRedis then
        let key := redisRateLimitKey rule tenantId userId
        let w := (lookupA windows key).getD []
        let (res, w') := checkRedisRateLimit rule w now
        (res, insertA windows key w')
      else
        (checkMemoryRateLimit rule, windows)

/-- Feed a list of request timestamps through the Redis-backed check for
one rule, collecting the per-request results and the final window. -/
def processRedisRequests (rule : RateLimitRule) :
    List Int → List Int → List RateLimitResult × List Int
  | [], w => ([], w)
  | t :: ts, w =>
      let (res, w') := checkRedisRateLimit rule w t
      let (rs, w'') := processRedisRequests rule ts w'
      (res :: rs, w'')

/-- The result the Redis-backed limiter produces for the k-th request
(0-based) of a burst at time `t` under rule `rule`: admitted with the
correct remaining count while `k` is below the per-minute limit,
rejected with `limit`/`remaining = 0`/`reset_time = t + 60` afterwards. -/
def expectedBurstResult (rule : RateLimitRule) (t : Int) (k : Nat) :
    RateLimitResult :=
  if k < rule.requests_per_minute then
    { allowed := true, limit := rule.requests_per_minute,
      remaining := (rule.requests_per_minute : Int) - k - 1,
      reset_time := t + 60 }
  else
    { allowed := false, limit := rule.requests_per_minute,
      remaining := 0, reset_time := t + 60 }

/-! ## LLM response cache (llm_engine.py) -/

/-- The fields of `LLMRequest` read by the cache and cacheability logic.
The request temperature is a Python float compared against 0.3 and used
in the cache key; it is modelled as a rational number. -/
structure LLMRequest where
  tenant_id : Int
  prompt : String
  system_prompt : Option String := none
  max_tokens : Option Nat := none
  temperature : Rat := (7 : Rat) / 10
deriving Repr, DecidableEq

/-- The fields of `LLMResponse` read by the cache logic (`content` and
`model_used` stand in for the full payload; `created_at` is the
timestamp `datetime.utcnow()` recorded when the response object was
built, which is what `_cleanup_cache` compares against the TTL). -/
structure LLMResponse where
  model_used : String
  content : String
  finish_reason : String
  cached : Bool := false
  created_at : Int := 0
deriving Repr, DecidableEq

/-- `_generate_cache_key` serializes `(prompt, system_prompt,
temperature, max_tokens)` and hashes the JSON string; two requests get
the same key exactly when this quadruple coincides (up to hash
collisions), so the key is modelled as the quadruple itself. -/
structure CacheKeyData where
  prompt : String
  system_prompt : Option String
  temperature : Rat
  max_tokens : Option Nat
deriving Repr, DecidableEq

def generateCacheKey (r : LLMRequest) : CacheKeyData :=
  { prompt := r.prompt, system_prompt := r.system_prompt,
    temperature := r.temperature, max_tokens := r.max_tokens }

/-- `_should_cache_response`: deterministic (temperature below 0.3)
responses that terminated normally (`finish_reason == "stop"`). -/
def shouldCacheResponse (req : LLMRequest) (resp : LLMResponse) : Bool :=
  decide (req.temperature < (3 : Rat) / 10) && resp.finish_reason == "stop"

/-- The cache-relevant behaviour of `LLMEngine.generate`: look the key up
in `request_cache`; on a hit mark the stored response `cached = true`
and return it without calling any provider; on a miss return the
provider's response (passed in as `providerResp`, standing for the
result of the provider call) and store it when cacheable.  The middle
component records whether a provider call was made. -/
def generate (req : LLMRequest) (providerResp : LLMResponse)
    (cache : List (CacheKeyData × LLMResponse)) :
    LLMResponse × Bool × List (CacheKeyData × LLMResponse) :=
  let key := generateCacheKey req
  match lookupA cache key with
  | some r =>
      let r' := { r with cached := true }
      (r', false, insertA cache key r')
  | none =>
      let cache' := if shouldCacheResponse req providerResp then
          insertA cache key providerResp
        else cache
      (providerResp, true, cache')

/-- One pass of the `_cleanup_cache` background sweep at time `now`:
entries whose `created_at` is older than one hour (3600 s) are
evicted. -/
def cleanupCache (now : Int) (cache : List (CacheKeyData × LLMResponse)) :
    List (CacheKeyData × LLMResponse) :=
  cache.filter (fun kv => !(decide (kv.2.created_at < now - 3600)))

/-! ## Agent orchestrator (agent_orchestrator.py) -/

inductive TaskPriority where
  | critical
  | high
  | normal
  | low
deriving Repr, DecidableEq

inductive TaskStatus where
  | pending
  | assigned
  | running
  | completed
  | failed
  | cancelled
deriving Repr, DecidableEq

/-- `AgentTask` (opaque `payload`/`metadata` dicts omitted; the `result`
dict is modelled by its `"status"` entry). -/
structure AgentTask where
  id : Nat
  tenant_id : Int
  agent_type : String
  task_type : String
  priority : TaskPriority := .normal
  status : TaskStatus := .pending
  assigned_agent_id : Option Int := none
  created_at : Int := 0
  assigned_at : Option Int := none
  started_at : Option Int := none
  completed_at : Option Int := none
  error_message : Option String := none
  result : Option String := none
  retry_count : Nat := 0
  max_retries : Nat := 3
  timeout_seconds : Nat := 300
  dependencies : List Nat := []
deriving Repr, DecidableEq

/-- `AgentCapacity` (the float fields `cpu_usage_percent`,
`memory_usage_mb`, `average_task_duration` are read by no modelled
routine and are omitted).  The counters are Python ints, modelled as
integers so that the `max(0, ...)` clamp in the executor is
meaningful. -/
structure AgentCapacity where
  agent_id : Int
  max_concurrent_tasks : Int := 5
  current_tasks : Int := 0
  last_health_check : Int := 0
  is_healthy : Bool := true
deriving Repr, DecidableEq

/-- The in-memory state of `AgentOrchestrator`: the four priority queues,
the capacity dict and the running-task dict. -/
structure OrchestratorState where
  queue_critical : List AgentTask := []
  queue_high : List AgentTask := []
  queue_normal : List AgentTask := []
  queue_low : List AgentTask := []
  agent_capacities : List (Int × AgentCapacity) := []
  running_tasks : List (Nat × AgentTask) := []
deriving Repr, DecidableEq

def initOrchestrator : OrchestratorState := {}

def getQueue (s : OrchestratorState) : TaskPriority → List AgentTask
  | .critical => s.queue_critical
  | .high => s.queue_high
  | .normal => s.queue_normal
  | .low => s.queue_low

def setQueue (s : OrchestratorState) (p : TaskPriority)
    (q : List AgentTask) : OrchestratorState :=
  match p with
  | .critical => { s with queue_critical := q }
  | .high => { s with queue_high := q }
  | .normal => { s with queue_normal := q }
  | .low => { s with queue_low := q }

/-- `self.task_queue[task.priority].append(task)`. -/
def enqueueTask (s : OrchestratorState) (t : AgentTask) :
    OrchestratorState :=
  setQueue s t.priority (getQueue s t.priority ++ [t])

/-- `_validate_task`: tenant id, agent type and task type must all be
truthy (a zero tenant id or an empty string fails validation). -/
def validateTask (t : AgentTask) : Bool :=
  !(t.tenant_id == 0) && !(t.agent_type == "") && !(t.task_type == "")

/-- `submit_task`: invalid tasks are rejected with `ValueError`; valid
tasks are appended to the queue matching their priority.  For CRITICAL
and HIGH priorities the source then evaluates
`asyncio.create_task(self._schedule_task(task))`, but the class defines
no method named `_schedule_task`, so the attribute access raises
`AttributeError` after the task has already been enqueued.  The result
pairs the post-call state with either the returned task id or the
raised exception. -/
def submitTask (s : OrchestratorState) (t : AgentTask) :
    OrchestratorState × Except String Nat :=
  if !(validateTask t) then
    (s, Except.error ("ValueError: Invalid task"))
  else
    let s1 := enqueueTask s t
    if t.priority == .critical || t.priority == .high then
      (s1, Except.error
        "AttributeError: AgentOrchestrator object has no attribute _schedule_task")
    else
      (s1, Except.ok t.id)

/-- `_can_schedule_task`: a dependency blocks scheduling only when it is
present in `running_tasks` with a status other than COMPLETED;
dependencies absent from `running_tasks` are skipped. -/
def canScheduleTask (s : OrchestratorState) (t : AgentTask) : Bool :=
  t.dependencies.all (fun dep =>
    match lookupA s.running_tasks dep with
    | some dt => dt.status == .completed
    | none => true)

/-- Create the default capacity record for an agent if none exists
(`if agent_id not in self.agent_capacities: ... = AgentCapacity(...)`). -/
def ensureCapacity (s : OrchestratorState) (aid : Int) :
    OrchestratorState :=
  if (lookupA s.agent_capacities aid).isSome then s
  else { s with agent_capacities :=
          insertA s.agent_capacities aid { agent_id := aid } }

/-- `_find_best_agent`: derives the mock agent id `tenant_id * 100`,
creates its capacity record if missing, and offers it only when
`current_tasks < max_concurrent_tasks`. -/
def findBestAgent (s : OrchestratorState) (t : AgentTask) :
    Option Int × OrchestratorState :=
  let mockAgentId := t.tenant_id * 100
  let s1 := ensureCapacity s mockAgentId
  match lookupA s1.agent_capacities mockAgentId with
  | some cap =>
      if cap.current_tasks ≥ cap.max_concurrent_tasks then (none, s1)
      else (some mockAgentId, s1)
  | none => (none, s1)

/-- `_assign_task_to_agent`: stamp the task ASSIGNED with its agent and
time, create the capacity record if missing, increment
`current_tasks`, and register the task in `running_tasks`.  The
`asyncio.create_task(self._execute_task(task))` call starts execution
asynchronously; execution itself is modelled by `executeTask`. -/
def assignTaskToAgent (s : OrchestratorState) (t : AgentTask) (aid : Int)
    (now : Int) : OrchestratorState × AgentTask :=
  let t1 := { t with assigned_agent_id := some aid,
                     assigned_at := some now, status := .assigned }
  let s1 := ensureCapacity s aid
  let caps2 := updateA s1.agent_capacities aid
    (fun c => { c with current_tasks := c.current_tasks + 1 })
  let s2 := { s1 with agent_capacities := caps2 }
  ({ s2 with running_tasks := insertA s2.running_tasks t1.id t1 }, t1)

/-- One iteration of the per-tier loop of `_schedule_next_tasks`: try to
schedule `t`, accumulating the ids of scheduled tasks. -/
def scheduleStep (now : Int) (acc : OrchestratorState × List Nat)
    (t : AgentTask) : OrchestratorState × List Nat :=
  if canScheduleTask acc.1 t then
    match findBestAgent acc.1 t with
    | (some aid, st1) => ((assignTaskToAgent st1 t aid now).1, acc.2 ++ [t.id])
    | (none, st1) => (st1, acc.2)
  else acc

/-- Process one priority tier: iterate over the queue snapshot, then
remove the scheduled tasks from that queue. -/
def scheduleTier (s : OrchestratorState) (p : TaskPriority) (now : Int) :
    OrchestratorState :=
  let q := getQueue s p
  let res := q.foldl (scheduleStep now) (s, [])
  setQueue res.1 p (q.filter (fun t => !(res.2.contains t.id)))

/-- `_schedule_next_tasks`: tiers strictly in the order critical, high,
normal, low. -/
def scheduleNextTasks (s : OrchestratorState) (now : Int) :
    OrchestratorState :=
  [TaskPriority.critical, TaskPriority.high,
   TaskPriority.normal, TaskPriority.low].foldl
    (fun st p => scheduleTier st p now) s

/-- `scale_agent`: create the capacity record if missing, then overwrite
`max_concurrent_tasks` with the requested value (no check against
`current_tasks`); always returns `true`. -/
def scaleAgent (s : OrchestratorState) (aid : Int) (m : Int) :
    OrchestratorState × Bool :=
  let s1 := ensureCapacity s aid
  let caps2 := updateA s1.agent_capacities aid
    (fun c => { c with max_concurrent_tasks := m })
  ({ s1 with agent_capacities := caps2 }, true)

/-- Outcome of the (asynchronous) handler body inside `_execute_task`:
the placeholder body either runs to completion or raises. -/
inductive ExecOutcome where
  | success
  | failure (msg : String)
deriving Repr, DecidableEq

/-- The try/except part of `_execute_task`: the final task value and the
state after any retry re-enqueue, before the finally block runs. -/
def runHandler (s : OrchestratorState) (t : AgentTask)
    (outcome : ExecOutcome) (now : Int) : AgentTask × OrchestratorState :=
  match outcome with
  | .success =>
      ({ t with status := .completed, started_at := some now,
                completed_at := some now, result := some "success" }, s)
  | .failure msg =>
      let t1 := { t with status := .failed, started_at := some now,
                         error_message := some msg, completed_at := some now }
      if t1.retry_count < t1.max_retries then
        let tr := { t1 with retry_count := t1.retry_count + 1,
                            status := .pending }
        (tr, enqueueTask s tr)
      else (t1, s)

/-- The capacity-release part of the finally block: skipped when the
task has no (or a falsy) assigned agent id or the agent has no capacity
record; otherwise `current_tasks` is decremented with a clamp at 0. -/
def releaseCapacity (s : OrchestratorState) (t2 : AgentTask) :
    OrchestratorState :=
  match t2.assigned_agent_id with
  | some aid =>
      if aid == 0 then s
      else
        match lookupA s.agent_capacities aid with
        | some _ =>
            let caps2 := updateA s.agent_capacities aid
              (fun c => { c with
                          current_tasks := max 0 (c.current_tasks - 1) })
            { s with agent_capacities := caps2 }
        | none => s
  | none => s

/-- The running-tasks bookkeeping closing the finally block: terminal
tasks are popped; a retried (pending) task remains registered with its
mutated value, since the dict holds the object the source mutates in
place. -/
def settleRunning (s : OrchestratorState) (t2 : AgentTask) :
    OrchestratorState :=
  if t2.status == .completed || t2.status == .failed
      || t2.status == .cancelled then
    { s with running_tasks := eraseA s.running_tasks t2.id }
  else
    { s with running_tasks := insertA s.running_tasks t2.id t2 }

/-- `_execute_task`: the try block marks the task RUNNING then COMPLETED
on success; the except block marks it FAILED and, while retry budget
remains, increments `retry_count`, resets the status to PENDING and
re-appends the task to its priority queue (`runHandler`); the finally
block releases the owning agent's capacity (`releaseCapacity`) and
settles the running-task dict (`settleRunning`). -/
def executeTask (s : OrchestratorState) (t : AgentTask)
    (outcome : ExecOutcome) (now : Int) : OrchestratorState × AgentTask :=
  let step := runHandler s t outcome now
  (settleRunning (releaseCapacity step.2 step.1) step.1, step.1)

/-- The per-agent capacity bound of §3 of the specification:
`current_tasks ≤ max_concurrent_tasks` for every registered agent. -/
def capacityInvariant (s : OrchestratorState) : Prop :=
  ∀ p ∈ s.agent_capacities,
    p.2.current_tasks ≤ p.2.max_concurrent_tasks

/-- Nonnegativity of every agent's `current_tasks` counter. -/
def capacityNonneg (s : OrchestratorState) : Prop :=
  ∀ p ∈ s.agent_capacities, 0 ≤ p.2.current_tasks

/-! ## Concrete scenario states -/

/-- A dependency-free valid task for tenant 1. -/
def c1Task (n : Nat) : AgentTask :=
  { id := n, tenant_id := 1, agent_type := "dev", task_type := "build" }

/-- Three tasks submitted at normal priority; one scheduler tick then
assigns all three to the tenant's mock agent 100; finally the agent is
rescaled down to a single slot. -/
def c1Submit3 : OrchestratorState :=
  (submitTask (submitTask (submitTask initOrchestrator
    (c1Task 1)).1 (c1Task 2)).1 (c1Task 3)).1

def c1Assigned : OrchestratorState := scheduleNextTasks c1Submit3 0

def c1Scaled : OrchestratorState := (scaleAgent c1Assigned 100 1).1

/-- A pending low-priority task and a critical task that depends on
it. -/
def depLowTask : AgentTask :=
  { id := 1, tenant_id := 1, agent_type := "dev", task_type := "a",
    priority := .low }

def depCritTask : AgentTask :=
  { id := 2, tenant_id := 1, agent_type := "dev", task_type := "b",
    priority := .critical, dependencies := [1] }

/-- Both tasks queued and agent 100 limited to one concurrent task. -/
def c4Start : OrchestratorState :=
  { queue_low := [depLowTask], queue_critical := [depCritTask],
    agent_capacities := [(100, { agent_id := 100,
                                 max_concurrent_tasks := 1 })] }

/-- A COMPLETED dependency, a running-task table holding it, and one
holding it still RUNNING. -/
def doneDepTask : AgentTask :=
  { id := 1, tenant_id := 1, agent_type := "dev", task_type := "a",
    status := .completed }

def depDoneState : OrchestratorState :=
  { running_tasks := [(1, doneDepTask)] }

def depRunningState : OrchestratorState :=
  { running_tasks := [(1, { doneDepTask with status := .running })] }

/-- A valid CRITICAL-priority task. -/
def criticalTask : AgentTask :=
  { id := 7, tenant_id := 1, agent_type := "dev", task_type := "deploy",
    priority := .critical }

/-- A running task assigned to agent 100, which holds 2 of 5 slots: the
state the executor scenarios start from. -/
def execTask : AgentTask :=
  { id := 9, tenant_id := 1, agent_type := "dev", task_type := "x",
    status := .running, assigned_agent_id := some 100 }

def execState : OrchestratorState :=
  { agent_capacities := [(100, { agent_id := 100, current_tasks := 2 })],
    running_tasks := [(9, execTask)] }

/-- The same task with its retry budget exhausted. -/
def execTaskExhausted : AgentTask := { execTask with retry_count := 3 }

/-! ## Supporting lemmas about the association-list operations -/

section AssocLemmas

variable {α β : Type} [BEq α] [LawfulBEq α]

theorem lookupA_insertA_self (l : List (α × β)) (k : α) (v : β) :
    lookupA (insertA l k v) k = some v := by
  induction l with
  | nil => simp [insertA, lookupA]
  | cons p rest ih =>
      obtain ⟨k', v'⟩ := p
      by_cases h : k' == k
      · simp [insertA, h, lookupA]
      · simp [insertA, h, lookupA, ih]

theorem lookupA_insertA_ne (l : List (α × β)) (k k' : α) (v : β)
    (h : ¬(k == k')) : lookupA (insertA l k v) k' = lookupA l k' := by
  induction l with
  | nil => simp [insertA, lookupA, h]
  | cons p rest ih =>
      obtain ⟨k₀, v₀⟩ := p
      by_cases h₀ : k₀ == k
      · have hkk : k₀ = k := eq_of_beq h₀
        subst hkk
        simp [insertA, lookupA, h]
      · simp [insertA, h₀, lookupA, ih]

theorem lookupA_updateA_self (l : List (α × β)) (k : α) (f : β → β) :
    lookupA (updateA l k f) k = (lookupA l k).map f := by
  induction l with
  | nil => simp [updateA, lookupA]
  | cons p rest ih =>
      obtain ⟨k₀, v₀⟩ := p
      by_cases h₀ : k₀ == k
      · simp [updateA, h₀, lookupA]
      · simp [updateA, h₀, lookupA, ih]

theorem lookupA_updateA_ne (l : List (α × β)) (k k' : α) (f : β → β)
    (h : ¬(k == k')) : lookupA (updateA l k f) k' = lookupA l k' := by
  induction l with
  | nil => simp [updateA, lookupA]
  | cons p rest ih =>
      obtain ⟨k₀, v₀⟩ := p
      by_cases h₀ : k₀ == k
      · have hkk : k₀ = k := eq_of_beq h₀
        subst hkk
        simp [updateA, lookupA, h]
      · simp [updateA, h₀, lookupA, ih]

omit [LawfulBEq α] in
theorem mem_insertA {l : List (α × β)} {k : α} {v : β} {p : α × β}
    (h : p ∈ insertA l k v) : p = (k, v) ∨ p ∈ l := by
  induction l with
  | nil => simp [insertA] at h; exact Or.inl h
  | cons q rest ih =>
      obtain ⟨k₀, v₀⟩ := q
      by_cases h₀ : k₀ == k
      · simp [insertA, h₀] at h
        rcases h with h | h
        · exact Or.inl h
        · exact Or.inr (List.mem_cons_of_mem _ h)
      · simp only [insertA, h₀, Bool.false_eq_true, if_false] at h
        rcases List.mem_cons.mp h with h | h
        · exact Or.inr (by simp [h])
        · rcases ih h with h' | h'
          · exact Or.inl h'
          · exact Or.inr (List.mem_cons_of_mem _ h')

omit [LawfulBEq α] in
theorem mem_updateA {l : List (α × β)} {k : α} {f : β → β} {p : α × β}
    (h : p ∈ updateA l k f) :
    p ∈ l ∨ ∃ b, lookupA l k = some b ∧ p = (k, f b) := by
  induction l with
  | nil => simp [updateA] at h
  | cons q rest ih =>
      obtain ⟨k₀, v₀⟩ := q
      by_cases h₀ : k₀ == k
      · simp only [updateA, h₀, if_true] at h
        rcases List.mem_cons.mp h with h | h
        · exact Or.inr ⟨v₀, by simp [lookupA, h₀], h⟩
        · exact Or.inl (List.mem_cons_of_mem _ h)
      · simp only [updateA, h₀, Bool.false_eq_true, if_false] at h
        rcases List.mem_cons.mp h with h | h
        · exact Or.inl (by simp [h])
        · rcases ih h with h' | ⟨b, hb, hp⟩
          · exact Or.inl (List.mem_cons_of_mem _ h')
          · exact Or.inr ⟨b, by simp [lookupA, h₀, hb], hp⟩

end AssocLemmas

/-! ## Circuit breaker theorems (C3, C7) -/

/-- The failure/success outcome sequence F,F,F,F,S,F used to refute the
consecutive-failure reading of the breaker. -/
def c3Sequence : List Bool := [true, true, true, true, false, true]

/-- C3 counterexample: with the default `failure_threshold = 5`, the
outcome sequence F,F,F,F,S,F contains at most 4 consecutive failures
(the success intervenes before the fifth), yet it drives a fresh closed
breaker to the open state: `_update_circuit_breaker` does not reset the
failure counter on a success while closed, so failures accumulate
across intervening successes. -/
theorem breaker_opens_without_threshold_consecutive_failures :
    maxConsecutiveFailures c3Sequence <
      defaultBreakerConfig.failure_threshold ∧
    (runBreaker defaultBreakerConfig (freshBreaker "svc") c3Sequence).state
      = "open" := by
  constructor
  · decide
  · rfl

/-- C3 (amended): while a breaker is closed, each recorded failure
increments the cumulative failure counter and the breaker transitions
to open exactly when that cumulative count reaches `failure_threshold`;
a success recorded while closed leaves the breaker closed and leaves
the failure counter unchanged (it does not reset it). -/
theorem closed_breaker_transition (cfg : CircuitBreakerConfig)
    (b : CircuitBreakerState) (now : Nat) (h : b.state = "closed") :
    (updateBreaker cfg b true now).failure_count = b.failure_count + 1 ∧
    ((updateBreaker cfg b true now).state = "open" ↔
      cfg.failure_threshold ≤ b.failure_count + 1) ∧
    (updateBreaker cfg b false now).state = "closed" ∧
    (updateBreaker cfg b false now).failure_count = b.failure_count := by
  unfold updateBreaker
  by_cases hth : cfg.failure_threshold ≤ b.failure_count + 1
  · simp [h, hth]
  · simp [h, hth]

/-- Witness for `closed_breaker_transition` at the default configuration
and a fresh breaker. -/
theorem closed_breaker_transition_witness :
    (updateBreaker defaultBreakerConfig (freshBreaker "svc") true 0).failure_count
      = (freshBreaker "svc").failure_count + 1 ∧
    ((updateBreaker defaultBreakerConfig (freshBreaker "svc") true 0).state = "open" ↔
      defaultBreakerConfig.failure_threshold
        ≤ (freshBreaker "svc").failure_count + 1) ∧
    (updateBreaker defaultBreakerConfig (freshBreaker "svc") false 0).state
      = "closed" ∧
    (updateBreaker defaultBreakerConfig (freshBreaker "svc") false 0).failure_count
      = (freshBreaker "svc").failure_count :=
  closed_breaker_transition defaultBreakerConfig (freshBreaker "svc") 0 rfl

/-- The breaker table after five consecutive failures on endpoint
"svc". -/
def openedBreakers : List (String × CircuitBreakerState) :=
  [("svc", runBreaker defaultBreakerConfig (freshBreaker "svc")
      (List.replicate 5 true))]

/-- The breaker for "svc" after the recovery timeout has elapsed and
`_is_circuit_breaker_open` has moved it to half_open (a state reachable
through the source's own transitions). -/
def halfOpenBreaker : CircuitBreakerState :=
  (lookupA (isCircuitBreakerOpen defaultBreakerConfig openedBreakers
      "svc" 61).2 "svc").getD (freshBreaker "svc")

/-- C7 counterexample: a single failure recorded while the breaker is
half_open resets the success counter, but the state stays "half_open"
rather than transitioning back to "open" — `_update_circuit_breaker`
only ever sets the state to open from closed. -/
theorem half_open_failure_does_not_reopen :
    halfOpenBreaker.state = "half_open" ∧
    (updateBreaker defaultBreakerConfig halfOpenBreaker true 61).state
      = "half_open" ∧
    (updateBreaker defaultBreakerConfig halfOpenBreaker true 61).state
      ≠ "open" ∧
    (updateBreaker defaultBreakerConfig halfOpenBreaker true 61).success_count
      = 0 := by
  refine ⟨rfl, rfl, ?_, rfl⟩
  decide

/-- C7 (amended): a failure recorded while a breaker is half_open resets
the consecutive-success counter to zero and increments the failure
counter, but leaves the state half_open: the update function never
moves a half_open breaker back to open. -/
theorem half_open_failure_stays_half_open (cfg : CircuitBreakerConfig)
    (b : CircuitBreakerState) (now : Nat) (h : b.state = "half_open") :
    (updateBreaker cfg b true now).state = "half_open" ∧
    (updateBreaker cfg b true now).success_count = 0 ∧
    (updateBreaker cfg b true now).failure_count = b.failure_count + 1 := by
  unfold updateBreaker
  simp [h]

/-- Witness for `half_open_failure_stays_half_open` at the concrete
half_open breaker reached through five failures and a recovery
timeout. -/
theorem half_open_failure_stays_half_open_witness :
    (updateBreaker defaultBreakerConfig halfOpenBreaker true 100).state
      = "half_open" ∧
    (updateBreaker defaultBreakerConfig halfOpenBreaker true 100).success_count
      = 0 ∧
    (updateBreaker defaultBreakerConfig halfOpenBreaker true 100).failure_count
      = halfOpenBreaker.failure_count + 1 :=
  half_open_failure_stays_half_open defaultBreakerConfig halfOpenBreaker
    100 rfl

/-! ## Rate limiter theorems (C9) -/

theorem prunedWindow_replicate (k : Nat) (t : Int) :
    prunedWindow (List.replicate k t) t = List.replicate k t := by
  unfold prunedWindow
  apply List.filter_eq_self.mpr
  intro a ha
  have hat : a = t := List.eq_of_mem_replicate ha
  subst hat
  have h1 : ¬(a ≤ a - 60) := by omega
  simp [h1]

theorem checkRedis_burst_step (rule : RateLimitRule) (t : Int) (k : Nat) :
    checkRedisRateLimit rule (List.replicate k t) t =
      (expectedBurstResult rule t k,
       if k < rule.requests_per_minute then List.replicate (k + 1) t
       else List.replicate k t) := by
  unfold checkRedisRateLimit expectedBurstResult
  rw [prunedWindow_replicate]
  by_cases hk : k < rule.requests_per_minute
  · simp [List.length_replicate, hk, Nat.not_le.mpr hk, List.replicate_succ']
  · have hk2 : rule.requests_per_minute ≤ k := Nat.le_of_not_lt hk
    simp [List.length_replicate, hk, hk2]

theorem processRedis_burst_general (rule : RateLimitRule) (t : Int) :
    ∀ (d j : Nat), j + d = rule.requests_per_minute + 1 →
      (processRedisRequests rule (List.replicate d t)
          (List.replicate j t)).1
        = (List.range d).map (fun i => expectedBurstResult rule t (j + i)) := by
  intro d
  induction d with
  | zero => intro j hj; simp [processRedisRequests]
  | succ d ih =>
      intro j hj
      rw [List.replicate_succ]
      rcases (by omega : j < rule.requests_per_minute ∨
          (j = rule.requests_per_minute ∧ d = 0)) with hlt | ⟨hj1, hd0⟩
      · have hstep := checkRedis_burst_step rule t j
        rw [if_pos hlt] at hstep
        simp only [processRedisRequests, hstep]
        rw [ih (j + 1) (by omega)]
        rw [List.range_succ_eq_map]
        simp only [List.map_cons, List.map_map, Nat.add_zero]
        congr 1
        congr 1
        funext i
        simp only [Function.comp]
        congr 1
        omega
      · subst hj1; subst hd0
        have hstep := checkRedis_burst_step rule t rule.requests_per_minute
        rw [if_neg (by omega)] at hstep
        simp [processRedisRequests, hstep, List.range_succ]

/-- C9 (amended): when Redis backs the limiter, a burst of
`requests_per_minute + 1` requests at one instant against a fresh
window is admitted for exactly its first `requests_per_minute` requests
(each reporting the rule limit and the correct remaining count), while
the last is rejected reporting `limit = requests_per_minute`,
`remaining = 0` and `reset_time = t + 60`; the in-memory fallback used
when Redis is unavailable (`_check_memory_rate_limit`) keeps no state
and admits every request. -/
theorem rate_limiter_admits_first_n (rule : RateLimitRule) (t : Int) :
    (processRedisRequests rule
        (List.replicate (rule.requests_per_minute + 1) t) []).1
      = (List.range (rule.requests_per_minute + 1)).map
          (expectedBurstResult rule t) ∧
    (checkMemoryRateLimit rule).allowed = true := by
  constructor
  · have h := processRedis_burst_general rule t
      (rule.requests_per_minute + 1) 0 (by omega)
    simpa using h
  · rfl

/-- A rule limiting its pattern to one request per minute. -/
def memRule : RateLimitRule :=
  { id := "r1", name := "limit-one", pattern := "*",
    requests_per_minute := 1 }

/-- C9 counterexample: with Redis unavailable the gateway falls back to
`_check_memory_rate_limit`, which admits every request: under a rule
with `requests_per_minute = 1`, the second matching request inside the
same 60-second window is still admitted (and no window state is even
recorded), so the limiter does not reject the (N+1)-th request. -/
theorem memory_fallback_admits_beyond_limit :
    memRule.requests_per_minute = 1 ∧
    (checkRateLimits false [memRule] "/api/x" "GET" (some 1) none
        [] 0).1.allowed = true ∧
    (checkRateLimits false [memRule] "/api/x" "GET" (some 1) none
        (checkRateLimits false [memRule] "/api/x" "GET" (some 1) none
          [] 0).2 30).1.allowed = true ∧
    (checkRateLimits false [memRule] "/api/x" "GET" (some 1) none [] 0).2
      = [] := by
  decide

/-! ## LLM response cache theorems (C8) -/

theorem lookupA_filter_of_pred {α β : Type} [BEq α] [LawfulBEq α]
    (l : List (α × β)) (k : α) (v : β) (P : α × β → Bool)
    (h : lookupA l k = some v) (hv : P (k, v) = true) :
    lookupA (l.filter P) k = some v := by
  induction l with
  | nil => simp [lookupA] at h
  | cons p rest ih =>
      obtain ⟨k₀, v₀⟩ := p
      by_cases h₀ : k₀ == k
      · have hk : k₀ = k := eq_of_beq h₀
        subst hk
        simp [lookupA] at h
        subst h
        simp [List.filter_cons, hv, lookupA]
      · simp only [lookupA, h₀, Bool.false_eq_true, if_false] at h
        cases hP : P (k₀, v₀) with
        | true => simp [List.filter_cons, hP, lookupA, h₀, ih h]
        | false => simp [List.filter_cons, hP, ih h]

theorem lookupA_filter_none {α β : Type} [BEq α] [LawfulBEq α]
    (l : List (α × β)) (k : α) (P : α × β → Bool)
    (h : ∀ p ∈ l, p.1 = k → P p = false) :
    lookupA (l.filter P) k = none := by
  induction l with
  | nil => simp [lookupA]
  | cons p rest ih =>
      obtain ⟨k₀, v₀⟩ := p
      have ihrest := ih (fun p hp hpk => h p (List.mem_cons_of_mem _ hp) hpk)
      by_cases h₀ : k₀ == k
      · have hk : k₀ = k := eq_of_beq h₀
        subst hk
        have hfalse := h (k₀, v₀) (List.mem_cons_self _ _) rfl
        simp [List.filter_cons, hfalse, ihrest]
      · cases hP : P (k₀, v₀) with
        | true => simp [List.filter_cons, hP, lookupA, h₀, ihrest]
        | false => simp [List.filter_cons, hP, ihrest]

/-- C8 (amended): a generate call whose request has the identical cache
key (same prompt, system prompt, temperature, max tokens) returns the
stored response marked `cached = true` without any provider call
whenever the entry is still present in the cache, and makes a provider
call exactly when the key is absent; the background sweep preserves an
entry when at most the 1-hour TTL has elapsed at sweep time and evicts
it once more than the TTL has elapsed — so a stale entry stops hitting
only after a sweep that runs past its expiry, not at the moment the TTL
elapses. -/
theorem llm_cache_hit_and_ttl :
    (∀ req pr cache r,
      lookupA cache (generateCacheKey req) = some r →
      (generate req pr cache).1 = { r with cached := true } ∧
        (generate req pr cache).2.1 = false) ∧
    (∀ req pr cache,
      lookupA cache (generateCacheKey req) = none →
      (generate req pr cache).1 = pr ∧ (generate req pr cache).2.1 = true) ∧
    (∀ now cache k r,
      lookupA cache k = some r → now - 3600 ≤ r.created_at →
      lookupA (cleanupCache now cache) k = some r) ∧
    (∀ now cache k,
      (∀ p ∈ cache, p.1 = k → p.2.created_at < now - 3600) →
      lookupA (cleanupCache now cache) k = none) := by
  refine ⟨?_, ?_, ?_, ?_⟩
  · intro req pr cache r h
    simp [generate, h]
  · intro req pr cache h
    simp [generate, h]
  · intro now cache k r h hage
    unfold cleanupCache
    apply lookupA_filter_of_pred cache k r _ h
    simp only [Bool.not_eq_true', decide_eq_false_iff_not]
    omega
  · intro now cache k h
    unfold cleanupCache
    apply lookupA_filter_none
    intro p hp hpk
    simp [h p hp hpk]

/-- A deterministic request (temperature 0.2) and the provider responses
used for the cache scenarios. -/
def cachedReq : LLMRequest :=
  { tenant_id := 1, prompt := "p", system_prompt := none,
    max_tokens := some 100, temperature := (1 : Rat) / 5 }

def storedResp : LLMResponse :=
  { model_used := "m0", content := "original", finish_reason := "stop",
    created_at := 0 }

def freshResp : LLMResponse :=
  { model_used := "m1", content := "fresh", finish_reason := "stop",
    created_at := 4000 }

/-- The cache after `generate` stored `storedResp` at time 0. -/
def cacheAfterStore : List (CacheKeyData × LLMResponse) :=
  (generate cachedReq storedResp []).2.2

/-- The request temperature 1/5 is below the 0.3 determinism cutoff and
the stored response terminated normally, so the store happens. -/
theorem cachedReq_deterministic :
    shouldCacheResponse cachedReq storedResp = true := by
  simp only [shouldCacheResponse, cachedReq, storedResp]
  norm_num

theorem cacheAfterStore_eq :
    cacheAfterStore = [(generateCacheKey cachedReq, storedResp)] := by
  simp [cacheAfterStore, generate, lookupA, cachedReq_deterministic, insertA]

theorem cacheAfterStore_lookup :
    lookupA cacheAfterStore (generateCacheKey cachedReq)
      = some storedResp := by
  rw [cacheAfterStore_eq]
  simp [lookupA]

/-- C8 counterexample: the response stored at time 0 is still returned
as a cache hit, without a provider call, by a generate call issued at
time 4000 — more than the 1-hour TTL after it was stored (the lookup in
`generate` consults no clock); only the background sweep would have
evicted the entry, as the final conjunct shows. -/
theorem stale_cache_hit_after_ttl :
    (generate cachedReq freshResp cacheAfterStore).1.content
      = "original" ∧
    (generate cachedReq freshResp cacheAfterStore).1.cached = true ∧
    (generate cachedReq freshResp cacheAfterStore).2.1 = false ∧
    storedResp.created_at < 4000 - 3600 ∧
    lookupA (cleanupCache 4000 cacheAfterStore)
      (generateCacheKey cachedReq) = none := by
  have hhit : generate cachedReq freshResp cacheAfterStore
      = ({ storedResp with cached := true }, false,
         insertA cacheAfterStore (generateCacheKey cachedReq)
           { storedResp with cached := true }) := by
    simp [generate, cacheAfterStore_lookup]
  refine ⟨by rw [hhit]; rfl, by rw [hhit], by rw [hhit],
    by norm_num [storedResp], ?_⟩
  rw [cacheAfterStore_eq]
  simp [cleanupCache, storedResp, lookupA]

/-- Witness for `llm_cache_hit_and_ttl` at the concrete request,
responses and cache above. -/
theorem llm_cache_hit_and_ttl_witness :
    ((generate cachedReq freshResp cacheAfterStore).1
        = { storedResp with cached := true } ∧
      (generate cachedReq freshResp cacheAfterStore).2.1 = false) ∧
    ((generate cachedReq storedResp []).1 = storedResp ∧
      (generate cachedReq storedResp []).2.1 = true) ∧
    lookupA (cleanupCache 1000 cacheAfterStore)
      (generateCacheKey cachedReq) = some storedResp ∧
    lookupA (cleanupCache 4000 cacheAfterStore)
      (generateCacheKey cachedReq) = none :=
  ⟨llm_cache_hit_and_ttl.1 cachedReq freshResp cacheAfterStore storedResp
      cacheAfterStore_lookup,
   llm_cache_hit_and_ttl.2.1 cachedReq storedResp [] rfl,
   llm_cache_hit_and_ttl.2.2.1 1000 cacheAfterStore
      (generateCacheKey cachedReq) storedResp cacheAfterStore_lookup
      (by norm_num [storedResp]),
   llm_cache_hit_and_ttl.2.2.2 4000 cacheAfterStore
      (generateCacheKey cachedReq)
      (by
        rw [cacheAfterStore_eq]
        intro p hp hpk
        simp only [List.mem_singleton] at hp
        subst hp
        norm_num [storedResp])⟩

/-! ## Orchestrator state plumbing lemmas -/

theorem setQueue_capacities (s : OrchestratorState) (p : TaskPriority)
    (q : List AgentTask) :
    (setQueue s p q).agent_capacities = s.agent_capacities := by
  cases p <;> rfl

theorem setQueue_running (s : OrchestratorState) (p : TaskPriority)
    (q : List AgentTask) :
    (setQueue s p q).running_tasks = s.running_tasks := by
  cases p <;> rfl

theorem getQueue_setQueue_self (s : OrchestratorState) (p : TaskPriority)
    (q : List AgentTask) : getQueue (setQueue s p q) p = q := by
  cases p <;> rfl

theorem getQueue_setQueue_ne (s : OrchestratorState) (p : TaskPriority)
    (q : List AgentTask) (p' : TaskPriority) (h : p' ≠ p) :
    getQueue (setQueue s p q) p' = getQueue s p' := by
  cases p <;> cases p' <;> first | rfl | exact absurd rfl h

theorem getQueue_caps_set (s : OrchestratorState)
    (x : List (Int × AgentCapacity)) (p : TaskPriority) :
    getQueue { s with agent_capacities := x } p = getQueue s p := by
  cases p <;> rfl

theorem getQueue_running_set (s : OrchestratorState)
    (x : List (Nat × AgentTask)) (p : TaskPriority) :
    getQueue { s with running_tasks := x } p = getQueue s p := by
  cases p <;> rfl

theorem enqueueTask_capacities (s : OrchestratorState) (t : AgentTask) :
    (enqueueTask s t).agent_capacities = s.agent_capacities :=
  setQueue_capacities s t.priority _

theorem enqueueTask_running (s : OrchestratorState) (t : AgentTask) :
    (enqueueTask s t).running_tasks = s.running_tasks :=
  setQueue_running s t.priority _

theorem getQueue_enqueueTask (s : OrchestratorState) (t : AgentTask)
    (p : TaskPriority) :
    getQueue (enqueueTask s t) p =
      if p = t.priority then getQueue s p ++ [t] else getQueue s p := by
  unfold enqueueTask
  by_cases h : p = t.priority
  · subst h; rw [getQueue_setQueue_self, if_pos rfl]
  · rw [getQueue_setQueue_ne _ _ _ _ h, if_neg h]

/-! ## Executor lemmas -/

theorem runHandler_assigned (s : OrchestratorState) (t : AgentTask)
    (o : ExecOutcome) (now : Int) :
    (runHandler s t o now).1.assigned_agent_id = t.assigned_agent_id := by
  unfold runHandler
  cases o with
  | success => rfl
  | failure msg => dsimp only; split <;> rfl

theorem runHandler_capacities (s : OrchestratorState) (t : AgentTask)
    (o : ExecOutcome) (now : Int) :
    (runHandler s t o now).2.agent_capacities = s.agent_capacities := by
  unfold runHandler
  cases o with
  | success => rfl
  | failure msg =>
      dsimp only
      split
      · exact enqueueTask_capacities s _
      · rfl

theorem releaseCapacity_queues (s : OrchestratorState) (t2 : AgentTask)
    (p : TaskPriority) :
    getQueue (releaseCapacity s t2) p = getQueue s p := by
  unfold releaseCapacity
  cases t2.assigned_agent_id with
  | none => rfl
  | some aid =>
      dsimp only
      split
      · rfl
      · cases lookupA s.agent_capacities aid with
        | none => rfl
        | some cap => exact getQueue_caps_set s _ p

theorem settleRunning_queues (s : OrchestratorState) (t2 : AgentTask)
    (p : TaskPriority) :
    getQueue (settleRunning s t2) p = getQueue s p := by
  unfold settleRunning
  split
  · exact getQueue_running_set s _ p
  · exact getQueue_running_set s _ p

theorem settleRunning_capacities (s : OrchestratorState) (t2 : AgentTask) :
    (settleRunning s t2).agent_capacities = s.agent_capacities := by
  unfold settleRunning
  split <;> rfl

theorem releaseCapacity_caps_cases (s : OrchestratorState) (t2 : AgentTask) :
    (releaseCapacity s t2).agent_capacities = s.agent_capacities ∨
    ∃ aid, (releaseCapacity s t2).agent_capacities
        = updateA s.agent_capacities aid
            (fun c => { c with current_tasks := max 0 (c.current_tasks - 1) }) := by
  unfold releaseCapacity
  cases t2.assigned_agent_id with
  | none => exact Or.inl rfl
  | some aid =>
      dsimp only
      split
      · exact Or.inl rfl
      · cases lookupA s.agent_capacities aid with
        | none => exact Or.inl rfl
        | some cap => exact Or.inr ⟨aid, rfl⟩

theorem releaseCapacity_id_zero (s : OrchestratorState) (t2 : AgentTask)
    (hA : t2.assigned_agent_id = some 0) : releaseCapacity s t2 = s := by
  unfold releaseCapacity
  rw [hA]
  simp

theorem releaseCapacity_lookup (s : OrchestratorState) (t2 : AgentTask)
    (aid : Int) (cap : AgentCapacity)
    (hA : t2.assigned_agent_id = some aid) (h0 : ¬aid = 0)
    (hL : lookupA s.agent_capacities aid = some cap) :
    lookupA (releaseCapacity s t2).agent_capacities aid
      = some { cap with current_tasks := max 0 (cap.current_tasks - 1) } := by
  unfold releaseCapacity
  rw [hA]
  have h0b : (aid == 0) = false := by simp [h0]
  simp only [h0b, Bool.false_eq_true, if_false, hL]
  rw [lookupA_updateA_self, hL]
  rfl

theorem executeTask_fst (s : OrchestratorState) (t : AgentTask)
    (o : ExecOutcome) (now : Int) :
    (executeTask s t o now).1
      = settleRunning
          (releaseCapacity (runHandler s t o now).2 (runHandler s t o now).1)
          (runHandler s t o now).1 := rfl

theorem executeTask_snd (s : OrchestratorState) (t : AgentTask)
    (o : ExecOutcome) (now : Int) :
    (executeTask s t o now).2 = (runHandler s t o now).1 := rfl

/-- C10: the capacity-release step clamps at zero, so `current_tasks`
never becomes negative: executing a task (any outcome) preserves
nonnegativity of every agent counter, and releasing capacity for an
owning agent whose counter is already zero leaves it at zero. -/
theorem capacity_release_clamped_at_zero :
    (∀ s t o now, capacityNonneg s →
      capacityNonneg (executeTask s t o now).1) ∧
    (∀ s t o now aid cap, t.assigned_agent_id = some aid →
      lookupA s.agent_capacities aid = some cap → cap.current_tasks = 0 →
      (lookupA (executeTask s t o now).1.agent_capacities aid).map
          (fun c => c.current_tasks) = some 0) := by
  constructor
  · intro s t o now h p hp
    rw [executeTask_fst, settleRunning_capacities] at hp
    rcases releaseCapacity_caps_cases (runHandler s t o now).2
        (runHandler s t o now).1 with hc | ⟨aid, hc⟩
    · rw [hc, runHandler_capacities] at hp
      exact h p hp
    · rw [hc, runHandler_capacities] at hp
      rcases mem_updateA hp with hmem | ⟨b, hb, hpeq⟩
      · exact h p hmem
      · subst hpeq
        exact le_max_left 0 _
  · intro s t o now aid cap hA hL h0
    have hA1 : (runHandler s t o now).1.assigned_agent_id = some aid := by
      rw [runHandler_assigned, hA]
    have hL1 : lookupA (runHandler s t o now).2.agent_capacities aid
        = some cap := by
      rw [runHandler_capacities]; exact hL
    rw [executeTask_fst, settleRunning_capacities]
    by_cases hz : aid = 0
    · subst hz
      rw [releaseCapacity_id_zero _ _ hA1, hL1]
      simp [h0]
    · rw [releaseCapacity_lookup _ _ aid cap hA1 hz hL1]
      simp [h0]

/-- Witness for `capacity_release_clamped_at_zero`: the executor run on
a concrete state, and a release on an agent already at zero. -/
theorem capacity_release_clamped_at_zero_witness :
    capacityNonneg (executeTask execState execTask .success 5).1 ∧
    (lookupA (executeTask
        { execState with agent_capacities :=
            [(100, { agent_id := 100, current_tasks := 0 })] }
        execTask .success 5).1.agent_capacities 100).map
      (fun c => c.current_tasks) = some 0 :=
  ⟨capacity_release_clamped_at_zero.1 execState execTask .success 5
      (by unfold capacityNonneg; decide),
   capacity_release_clamped_at_zero.2
      { execState with agent_capacities :=
          [(100, { agent_id := 100, current_tasks := 0 })] }
      execTask .success 5 100 { agent_id := 100, current_tasks := 0 }
      (by decide) (by decide) (by decide)⟩

/-- C2: for every assigned task with a truthy agent id and a registered
capacity record, every outcome of `_execute_task` (success, failure
with retry, terminal failure) decrements the owning agent counter by
exactly one. -/
theorem executor_always_releases_capacity (s : OrchestratorState)
    (t : AgentTask) (o : ExecOutcome) (now : Int) (aid : Int)
    (cap : AgentCapacity) (hA : t.assigned_agent_id = some aid)
    (h0 : ¬aid = 0) (hL : lookupA s.agent_capacities aid = some cap)
    (hpos : 1 ≤ cap.current_tasks) :
    (lookupA (executeTask s t o now).1.agent_capacities aid).map
        (fun c => c.current_tasks) = some (cap.current_tasks - 1) := by
  have hA1 : (runHandler s t o now).1.assigned_agent_id = some aid := by
    rw [runHandler_assigned, hA]
  have hL1 : lookupA (runHandler s t o now).2.agent_capacities aid
      = some cap := by
    rw [runHandler_capacities]; exact hL
  rw [executeTask_fst, settleRunning_capacities,
      releaseCapacity_lookup _ _ aid cap hA1 h0 hL1]
  simp only [Option.map_some']
  rw [max_eq_right (by omega)]

/-- Witness for `executor_always_releases_capacity` on all three
outcomes of the concrete executor scenario (success, failure with
retry budget, failure with exhausted budget). -/
theorem executor_always_releases_capacity_witness :
    (lookupA (executeTask execState execTask .success 5).1.agent_capacities
        100).map (fun c => c.current_tasks) = some 1 ∧
    (lookupA (executeTask execState execTask (.failure "boom")
        5).1.agent_capacities 100).map (fun c => c.current_tasks)
      = some 1 ∧
    (lookupA (executeTask execState execTaskExhausted (.failure "boom")
        5).1.agent_capacities 100).map (fun c => c.current_tasks)
      = some 1 :=
  ⟨executor_always_releases_capacity execState execTask .success 5 100
      { agent_id := 100, current_tasks := 2 } (by decide) (by decide)
      (by decide) (by decide),
   executor_always_releases_capacity execState execTask (.failure "boom")
      5 100 { agent_id := 100, current_tasks := 2 } (by decide) (by decide)
      (by decide) (by decide),
   executor_always_releases_capacity execState execTaskExhausted
      (.failure "boom") 5 100 { agent_id := 100, current_tasks := 2 }
      (by decide) (by decide) (by decide) (by decide)⟩

/-- C5: a failing task with retry budget left is re-enqueued at its
original priority with `retry_count + 1` and status PENDING; a failing
task at `retry_count = max_retries` becomes FAILED and no queue is
touched. -/
theorem failed_task_retry_or_terminal (s : OrchestratorState)
    (t : AgentTask) (msg : String) (now : Int) :
    (t.retry_count < t.max_retries →
      (executeTask s t (.failure msg) now).2.status = TaskStatus.pending ∧
      (executeTask s t (.failure msg) now).2.retry_count
        = t.retry_count + 1 ∧
      (executeTask s t (.failure msg) now).2.priority = t.priority ∧
      getQueue (executeTask s t (.failure msg) now).1 t.priority
        = getQueue s t.priority
            ++ [(executeTask s t (.failure msg) now).2]) ∧
    (t.retry_count = t.max_retries →
      (executeTask s t (.failure msg) now).2.status = TaskStatus.failed ∧
      (executeTask s t (.failure msg) now).2.retry_count = t.retry_count ∧
      (executeTask s t (.failure msg) now).1.queue_critical
        = s.queue_critical ∧
      (executeTask s t (.failure msg) now).1.queue_high = s.queue_high ∧
      (executeTask s t (.failure msg) now).1.queue_normal
        = s.queue_normal ∧
      (executeTask s t (.failure msg) now).1.queue_low = s.queue_low) := by
  constructor
  · intro h
    have hrh : runHandler s t (.failure msg) now
        = ({ t with
              status := .pending, started_at := some now,
              error_message := some msg, completed_at := some now,
              retry_count := t.retry_count + 1 },
           enqueueTask s
             { t with
                status := .pending, started_at := some now,
                error_message := some msg, completed_at := some now,
                retry_count := t.retry_count + 1 }) := by
      unfold runHandler
      dsimp only
      rw [if_pos h]
    refine ⟨?_, ?_, ?_, ?_⟩
    · rw [executeTask_snd, hrh]
    · rw [executeTask_snd, hrh]
    · rw [executeTask_snd, hrh]
    · rw [executeTask_fst, executeTask_snd, settleRunning_queues,
          releaseCapacity_queues, hrh]
      rw [getQueue_enqueueTask]
      exact if_pos rfl
  · intro h
    have hrh : runHandler s t (.failure msg) now
        = ({ t with
              status := .failed, started_at := some now,
              error_message := some msg, completed_at := some now }, s) := by
      unfold runHandler
      dsimp only
      rw [if_neg (by omega)]
    have hq : ∀ p, getQueue (executeTask s t (.failure msg) now).1 p
        = getQueue s p := by
      intro p
      rw [executeTask_fst, settleRunning_queues, releaseCapacity_queues,
          hrh]
    exact ⟨by rw [executeTask_snd, hrh], by rw [executeTask_snd, hrh],
      hq .critical, hq .high, hq .normal, hq .low⟩

/-- Witness for `failed_task_retry_or_terminal`: the concrete executor
scenario with retry budget left and with the budget exhausted. -/
theorem failed_task_retry_or_terminal_witness :
    ((executeTask execState execTask (.failure "boom") 5).2.status
        = TaskStatus.pending ∧
      (executeTask execState execTask (.failure "boom") 5).2.retry_count
        = execTask.retry_count + 1 ∧
      (executeTask execState execTask (.failure "boom") 5).2.priority
        = execTask.priority ∧
      getQueue (executeTask execState execTask (.failure "boom") 5).1
          execTask.priority
        = getQueue execState execTask.priority
            ++ [(executeTask execState execTask (.failure "boom") 5).2]) ∧
    ((executeTask execState execTaskExhausted (.failure "boom")
          5).2.status = TaskStatus.failed ∧
      (executeTask execState execTaskExhausted (.failure "boom")
          5).2.retry_count = execTaskExhausted.retry_count ∧
      (executeTask execState execTaskExhausted (.failure "boom")
          5).1.queue_critical = execState.queue_critical ∧
      (executeTask execState execTaskExhausted (.failure "boom")
          5).1.queue_high = execState.queue_high ∧
      (executeTask execState execTaskExhausted (.failure "boom")
          5).1.queue_normal = execState.queue_normal ∧
      (executeTask execState execTaskExhausted (.failure "boom")
          5).1.queue_low = execState.queue_low) :=
  ⟨(failed_task_retry_or_terminal execState execTask "boom" 5).1
      (by decide),
   (failed_task_retry_or_terminal execState execTaskExhausted "boom"
      5).2 (by decide)⟩

/-- C6: `submit_task` on a valid CRITICAL task appends it to the
critical queue but then raises AttributeError, because the class
defines no `_schedule_task` method; a NORMAL-priority submission
returns the task id as the claim describes. -/
theorem submit_critical_task_raises :
    validateTask criticalTask = true ∧
    (submitTask initOrchestrator criticalTask).2
      = Except.error
        "AttributeError: AgentOrchestrator object has no attribute _schedule_task" ∧
    (submitTask initOrchestrator criticalTask).1.queue_critical
      = [criticalTask] ∧
    (submitTask initOrchestrator
        { criticalTask with id := 8, priority := .normal }).2
      = Except.ok 8 := by
  exact ⟨by decide, rfl, by decide, rfl⟩

/-- C4 counterexample: in a state where low-priority task 1 is still
queued (PENDING, absent from `running_tasks`) and critical task 2 lists
it as a dependency, one scheduler tick assigns task 2 anyway — the
dependency check skips dependencies that are not in `running_tasks`. -/
theorem scheduler_assigns_task_with_pending_dependency :
    depCritTask.dependencies = [depLowTask.id] ∧
    lookupA c4Start.running_tasks depLowTask.id = none ∧
    (lookupA (scheduleNextTasks c4Start 0).running_tasks
        depCritTask.id).map (fun u => u.status)
      = some TaskStatus.assigned ∧
    (scheduleNextTasks c4Start 0).queue_low.map
        (fun u => (u.id, u.status))
      = [(depLowTask.id, TaskStatus.pending)] := by
  decide

/-- C4 (amended): `_can_schedule_task` blocks a task exactly when some
listed dependency is currently present in `running_tasks` with a
status other than COMPLETED; dependencies absent from that dict (still
queued, never submitted, or already finished and removed) impose no
constraint, and a blocked task is left untouched by the scheduler
step. -/
theorem dependency_blocking_characterization :
    (∀ s t, canScheduleTask s t = true ↔
      ∀ dep ∈ t.dependencies, ∀ dt,
        lookupA s.running_tasks dep = some dt →
          dt.status = TaskStatus.completed) ∧
    (∀ now acc t, canScheduleTask acc.1 t = false →
      scheduleStep now acc t = acc) := by
  constructor
  · intro s t
    unfold canScheduleTask
    rw [List.all_eq_true]
    constructor
    · intro h dep hdep dt hdt
      have h2 := h dep hdep
      rw [hdt] at h2
      simpa using h2
    · intro h dep hdep
      cases hdt : lookupA s.running_tasks dep with
      | none => rfl
      | some dt => simpa using h dep hdep dt hdt
  · intro now acc t h
    unfold scheduleStep
    rw [h]
    simp

/-- Witness for `dependency_blocking_characterization`: a COMPLETED
running dependency satisfies the characterization, and a RUNNING one
blocks the scheduler step. -/
theorem dependency_blocking_characterization_witness :
    doneDepTask.status = TaskStatus.completed ∧
    scheduleStep 0 (depRunningState, ([] : List Nat)) depCritTask
      = (depRunningState, []) :=
  ⟨(dependency_blocking_characterization.1 depDoneState depCritTask).mp
      (by decide) 1 (by decide) doneDepTask (by decide),
   dependency_blocking_characterization.2 0 (depRunningState, [])
      depCritTask (by decide)⟩

/-! ## Capacity invariant lemmas (C1) -/

theorem ensureCapacity_eq_of_isSome (s : OrchestratorState) (aid : Int)
    (h : (lookupA s.agent_capacities aid).isSome) :
    ensureCapacity s aid = s := by
  unfold ensureCapacity
  rw [if_pos h]

theorem ensureCapacity_inv (s : OrchestratorState) (aid : Int)
    (h : capacityInvariant s) :
    capacityInvariant (ensureCapacity s aid) := by
  unfold ensureCapacity
  split
  · exact h
  · intro p hp
    rcases mem_insertA hp with hp1 | hp1
    · subst hp1
      show (0 : Int) ≤ 5
      decide
    · exact h p hp1

theorem findBestAgent_snd (s : OrchestratorState) (t : AgentTask) :
    (findBestAgent s t).2 = ensureCapacity s (t.tenant_id * 100) := by
  simp only [findBestAgent]
  cases lookupA (ensureCapacity s (t.tenant_id * 100)).agent_capacities
      (t.tenant_id * 100) with
  | none => rfl
  | some cap =>
      dsimp only
      by_cases hc : cap.current_tasks ≥ cap.max_concurrent_tasks
      · rw [if_pos hc]
      · rw [if_neg hc]

theorem findBestAgent_some (s : OrchestratorState) (t : AgentTask)
    (aid : Int) (h : (findBestAgent s t).1 = some aid) :
    ∃ cap, lookupA (findBestAgent s t).2.agent_capacities aid = some cap ∧
      cap.current_tasks < cap.max_concurrent_tasks := by
  simp only [findBestAgent] at h ⊢
  cases hL : lookupA (ensureCapacity s (t.tenant_id * 100)).agent_capacities
      (t.tenant_id * 100) with
  | none => rw [hL] at h; simp at h
  | some cap =>
      rw [hL] at h
      dsimp only at h ⊢
      by_cases hc : cap.current_tasks ≥ cap.max_concurrent_tasks
      · rw [if_pos hc] at h; simp at h
      · rw [if_neg hc] at h ⊢
        simp only [Option.some.injEq] at h
        subst h
        exact ⟨cap, hL, lt_of_not_ge hc⟩

theorem assignTaskToAgent_inv (s : OrchestratorState) (t : AgentTask)
    (aid : Int) (now : Int) (cap : AgentCapacity)
    (hL : lookupA s.agent_capacities aid = some cap)
    (hlt : cap.current_tasks < cap.max_concurrent_tasks)
    (h : capacityInvariant s) :
    capacityInvariant (assignTaskToAgent s t aid now).1 := by
  simp only [assignTaskToAgent]
  rw [ensureCapacity_eq_of_isSome s aid (by rw [hL]; rfl)]
  intro p hp
  rcases mem_updateA hp with hmem | ⟨b, hb, hpeq⟩
  · exact h p hmem
  · rw [hL] at hb
    injection hb with hb
    subst hb
    subst hpeq
    show cap.current_tasks + 1 ≤ cap.max_concurrent_tasks
    omega

theorem scheduleStep_eq (now : Int) (acc : OrchestratorState × List Nat)
    (t : AgentTask) :
    scheduleStep now acc t =
      if canScheduleTask acc.1 t then
        match (findBestAgent acc.1 t).1 with
        | some aid =>
            ((assignTaskToAgent (findBestAgent acc.1 t).2 t aid now).1,
             acc.2 ++ [t.id])
        | none => ((findBestAgent acc.1 t).2, acc.2)
      else acc := by
  unfold scheduleStep
  rcases hFB : findBestAgent acc.1 t with ⟨o1, st1⟩
  cases o1 <;> rfl

theorem scheduleStep_inv (now : Int) (acc : OrchestratorState × List Nat)
    (t : AgentTask) (h : capacityInvariant acc.1) :
    capacityInvariant (scheduleStep now acc t).1 := by
  rw [scheduleStep_eq]
  by_cases hc : canScheduleTask acc.1 t
  · rw [if_pos hc]
    cases hF : (findBestAgent acc.1 t).1 with
    | none =>
        dsimp only
        rw [findBestAgent_snd]
        exact ensureCapacity_inv _ _ h
    | some aid =>
        dsimp only
        obtain ⟨cap, hL, hlt⟩ := findBestAgent_some acc.1 t aid hF
        exact assignTaskToAgent_inv _ t aid now cap hL hlt
          (by rw [findBestAgent_snd]; exact ensureCapacity_inv _ _ h)
  · rw [if_neg hc]; exact h

theorem foldl_scheduleStep_inv (now : Int) :
    ∀ (q : List AgentTask) (acc : OrchestratorState × List Nat),
      capacityInvariant acc.1 →
      capacityInvariant (q.foldl (scheduleStep now) acc).1 := by
  intro q
  induction q with
  | nil => intro acc h; simpa using h
  | cons t rest ih =>
      intro acc h
      rw [List.foldl_cons]
      exact ih _ (scheduleStep_inv now acc t h)

theorem scheduleTier_inv (s : OrchestratorState) (p : TaskPriority)
    (now : Int) (h : capacityInvariant s) :
    capacityInvariant (scheduleTier s p now) := by
  simp only [scheduleTier]
  intro q hq
  rw [setQueue_capacities] at hq
  exact foldl_scheduleStep_inv now (getQueue s p) (s, []) h q hq

theorem scheduleNextTasks_inv (s : OrchestratorState) (now : Int)
    (h : capacityInvariant s) :
    capacityInvariant (scheduleNextTasks s now) := by
  unfold scheduleNextTasks
  simp only [List.foldl_cons, List.foldl_nil]
  exact scheduleTier_inv _ _ _ (scheduleTier_inv _ _ _
    (scheduleTier_inv _ _ _ (scheduleTier_inv _ _ _ h)))

theorem scaleAgent_inv (s : OrchestratorState) (aid : Int) (m : Int)
    (h : capacityInvariant s)
    (hm : ((lookupA s.agent_capacities aid).map
        (fun c => c.current_tasks)).getD 0 ≤ m) :
    capacityInvariant (scaleAgent s aid m).1 := by
  simp only [scaleAgent]
  cases hL : lookupA s.agent_capacities aid with
  | some cap =>
      rw [ensureCapacity_eq_of_isSome s aid (by rw [hL]; rfl)]
      intro p hp
      rcases mem_updateA hp with hmem | ⟨b, hb, hpeq⟩
      · exact h p hmem
      · rw [hL] at hb
        injection hb with hb
        subst hb
        subst hpeq
        rw [hL] at hm
        simpa using hm
  | none =>
      unfold ensureCapacity
      rw [if_neg (by rw [hL]; simp)]
      intro p hp
      rcases mem_updateA hp with hmem | ⟨b, hb, hpeq⟩
      · rcases mem_insertA hmem with h1 | h1
        · subst h1
          show (0 : Int) ≤ 5
          decide
        · exact h p h1
      · rw [lookupA_insertA_self] at hb
        injection hb with hb
        subst hb
        subst hpeq
        rw [hL] at hm
        simpa using hm

/-- C1 (amended): the scheduler preserves the per-agent bound
`current_tasks ≤ max_concurrent_tasks` — `_find_best_agent` only offers
an agent below its limit and assignment increments by one — and
`scale_agent` preserves it exactly when the new maximum is at least the
agent's current task count; `scale_agent` itself performs no such
check, so rescaling below the current count violates the bound. -/
theorem capacity_bound_scheduler_and_scale :
    (∀ s now, capacityInvariant s →
      capacityInvariant (scheduleNextTasks s now)) ∧
    (∀ s aid m, capacityInvariant s →
      ((lookupA s.agent_capacities aid).map
          (fun c => c.current_tasks)).getD 0 ≤ m →
      capacityInvariant (scaleAgent s aid m).1) :=
  ⟨scheduleNextTasks_inv, scaleAgent_inv⟩

/-- C1 counterexample: submit three tasks, let one tick assign all
three to agent 100 (capacity 3 of 5), then `scale_agent` down to 1:
the resulting record has `current_tasks = 3 > 1 = max_concurrent_tasks`,
so `scale_agent` does not preserve the §3 bound. -/
theorem scale_agent_breaks_capacity_bound :
    (lookupA c1Scaled.agent_capacities 100).map
        (fun c => (c.current_tasks, c.max_concurrent_tasks))
      = some (3, 1) ∧
    ¬ capacityInvariant c1Scaled := by
  constructor
  · decide
  · unfold capacityInvariant
    decide

/-- Witness for `capacity_bound_scheduler_and_scale` on the concrete
three-task scenario: the tick preserves the bound, and rescaling to a
value at least the current count preserves it too. -/
theorem capacity_bound_scheduler_and_scale_witness :
    capacityInvariant (scheduleNextTasks c1Submit3 0) ∧
    capacityInvariant (scaleAgent c1Assigned 100 5).1 :=
  ⟨capacity_bound_scheduler_and_scale.1 c1Submit3 0
      (by unfold capacityInvariant; decide),
   capacity_bound_scheduler_and_scale.2 c1Assigned 100 5
      (by unfold capacityInvariant; decide) (by decide)⟩

end AgentProvision
